import Mathlib

/-
  Verification of the CLIO diagram-generation scripts.

  The two Python scripts under scripts/ draw architecture / data-flow
  diagrams by emitting matplotlib artists (patches, lines, text) onto an
  axes object in a fixed order.  We embed each drawing call as an element
  of an emission trace (a `List Elem`); each Python helper becomes a Lean
  function returning the list of elements it adds, in the order the
  source adds them.  Coordinates are exact rationals.
-/

namespace Clio

/-- One artist emitted onto the axes: a plotted line segment (with its
explicit zorder, as passed at the call site), a rectangle patch, a
fancy-box patch, an ellipse patch (given by center and size, as the
matplotlib constructor takes it), an arrow patch (endpoints plus the
arc3 curvature), or a text artist. -/
inductive Elem where
  | line (x1 y1 x2 y2 z : ℚ)
  | rect (x y w h : ℚ)
  | fancyBox (x y w h : ℚ)
  | ellipse (cx cy w h : ℚ)
  | arrowPatch (sx sy ex ey curve : ℚ)
  | text (x y : ℚ) (s : String)
  deriving DecidableEq, Repr

/-- An element is a connector (FancyArrowPatch). -/
def Elem.isArrow : Elem → Bool
  | .arrowPatch _ _ _ _ _ => true
  | _ => false

/-- An element is a shape patch (Rectangle, FancyBboxPatch or Ellipse). -/
def Elem.isShape : Elem → Bool
  | .rect _ _ _ _ => true
  | .fancyBox _ _ _ _ => true
  | .ellipse _ _ _ _ => true
  | _ => false

/-- An element is a plotted line segment. -/
def Elem.isLine : Elem → Bool
  | .line _ _ _ _ _ => true
  | _ => false

/-- z-order of an element: plotted lines carry the zorder passed at the
call site; patches keep matplotlib's default patch zorder 1; text keeps
matplotlib's default text zorder 3. -/
def Elem.zorder : Elem → ℚ
  | .line _ _ _ _ z => z
  | .text _ _ _ => 3
  | _ => 1

namespace Proposal

/-- The grid loop of `setup_canvas`: for each `i` in `range (steps+1)`
plot a vertical line `([p,p],[0,1])` and a horizontal line
`([0,1],[p,p])` at `p = i / steps`, both with zorder 0. -/
def gridLines (steps : ℕ) : List Elem :=
  (List.range (steps + 1)).flatMap fun i =>
    [Elem.line ((i : ℚ) / steps) 0 ((i : ℚ) / steps) 1 0,
     Elem.line 0 ((i : ℚ) / steps) 1 ((i : ℚ) / steps) 0]

/-- `setup_canvas`: grid (steps = 50), then the title text, then the
subtitle text when the subtitle string is non-empty. -/
def setup_canvas (title subtitle : String) : List Elem :=
  gridLines 50 ++ [Elem.text 0.02 0.975 title] ++
    (if subtitle = "" then [] else [Elem.text 0.02 0.945 subtitle])

/-- `draw_layer`: outline rectangle plus the layer title at the top edge. -/
def draw_layer (x y w h : ℚ) (title : String) : List Elem :=
  [Elem.rect x y w h, Elem.text (x + w / 2) (y + h - 0.015) title]

/-- `draw_rect`: rectangle plus centered label. -/
def draw_rect (x y w h : ℚ) (s : String) : List Elem :=
  [Elem.rect x y w h, Elem.text (x + w / 2) (y + h / 2) s]

/-- `draw_round`: rounded box plus centered label. -/
def draw_round (x y w h : ℚ) (s : String) : List Elem :=
  [Elem.fancyBox x y w h, Elem.text (x + w / 2) (y + h / 2) s]

/-- The bullet loop of `draw_bullet_panel`: starting at `line_y`, one
text per item at `x + 0.018`, stepping `line_y` down by 0.028. -/
def bulletLines (x : ℚ) : ℚ → List String → List Elem
  | _, [] => []
  | lineY, item :: rest =>
      Elem.text (x + 0.018) lineY ("- " ++ item) :: bulletLines x (lineY - 0.028) rest

/-- `draw_bullet_panel`: rounded box, bold title, then the first four
body lines (`lines[:4]`) bulleted top-down. -/
def draw_bullet_panel (x y w h : ℚ) (title : String) (lines : List String) : List Elem :=
  [Elem.fancyBox x y w h, Elem.text (x + 0.015) (y + h - 0.02) title] ++
    bulletLines x (y + h - 0.05) (lines.take 4)

/-- `draw_ellipse`: ellipse centered in the (x, y, w, h) box plus label. -/
def draw_ellipse (x y w h : ℚ) (s : String) : List Elem :=
  [Elem.ellipse (x + w / 2) (y + h / 2) w h, Elem.text (x + w / 2) (y + h / 2) s]

/-- `draw_database`: rectangle body of height `h - 0.05` at `y + 0.025`,
a top ellipse cap at `y + h - 0.005`, a bottom ellipse cap at
`y + 0.025`, the title at `y + h/2 + 0.02` and, when non-empty, the
subtitle at `y + h/2 - 0.02`. -/
def draw_database (x y w h : ℚ) (title subtitle : String) : List Elem :=
  [Elem.rect x (y + 0.025) w (h - 0.05),
   Elem.ellipse (x + w / 2) (y + h - 0.005) w 0.05,
   Elem.ellipse (x + w / 2) (y + 0.025) w 0.05,
   Elem.text (x + w / 2) (y + h / 2 + 0.02) title] ++
    (if subtitle = "" then [] else [Elem.text (x + w / 2) (y + h / 2 - 0.02) subtitle])

/-- `arrow`: one FancyArrowPatch from `(sx, sy)` to `(ex, ey)` with arc3
curvature `curve`; when the label is non-empty, a text at the chord's
arithmetic midpoint shifted up by 0.012. -/
def arrow (sx sy ex ey : ℚ) (label : String) (curve : ℚ) : List Elem :=
  Elem.arrowPatch sx sy ex ey curve ::
    (if label = "" then []
     else [Elem.text ((sx + ex) / 2) ((sy + ey) / 2 + 0.012) label])

/-- The template-instancing input of `generate_role_dfd` (its keyword
parameters, minus the output path). -/
structure TemplateSpec where
  role_title : String
  actor_lines : List String
  process_label : String
  action_lines : List String
  db_label : String
  audit_lines : List String
  notes : List String

/-- The actor loop of `generate_role_dfd`: boxes at x = 0.04, starting
at the given y and stepping down 0.11 per actor. -/
def actorBoxes : ℚ → List String → List Elem
  | _, [] => []
  | y, s :: rest => draw_rect 0.04 y 0.14 0.08 s ++ actorBoxes (y - 0.11) rest

/-- The action-stack loop of `generate_role_dfd`: boxes at x = 0.68,
starting at the given y and stepping down 0.09 per action item. -/
def actionBoxes : ℚ → List String → List Elem
  | _, [] => []
  | y, s :: rest => draw_rect 0.68 y 0.16 0.065 s ++ actionBoxes (y - 0.09) rest

/-- The fixed table `action_centers` of `generate_role_dfd`. -/
def action_centers : List ℚ := [0.762, 0.672, 0.582, 0.492, 0.402]

/-- The ellipse-to-action-arrow loop: one curved arrow from (0.63, 0.57)
to (0.68, cy) for each cy in `action_centers[:n]`. -/
def actionArrows (n : ℕ) : List Elem :=
  (action_centers.take n).flatMap fun cy => arrow 0.63 0.57 0.68 cy "" 0.02

/-- `generate_role_dfd`: the full emission trace of one role DFD. -/
def generate_role_dfd (s : TemplateSpec) : List Elem :=
  setup_canvas (s.role_title ++ " Data Flow Diagram")
      "Project CLIO Role-Centric Operational Flow" ++
  actorBoxes 0.72 s.actor_lines ++
  draw_rect 0.23 0.56 0.14 0.08 s.role_title ++
  draw_ellipse 0.45 0.49 0.18 0.16 s.process_label ++
  draw_rect 0.41 0.70 0.22 0.06 "RBAC + Ownership Validation" ++
  actionBoxes 0.73 s.action_lines ++
  draw_database 0.88 0.48 0.09 0.22 "CLIO DB" s.db_label ++
  draw_database 0.88 0.18 0.09 0.20 "Audit Logs" "Tamper-resistant" ++
  draw_bullet_panel 0.25 0.16 0.29 0.16 "Audit Focus" s.audit_lines ++
  draw_bullet_panel 0.56 0.16 0.22 0.16 "Security Notes" s.notes ++
  arrow 0.18 0.76 0.23 0.60 "Access" 0 ++
  (if s.actor_lines.length > 1 then arrow 0.18 0.65 0.23 0.60 "" 0.05 else []) ++
  (if s.actor_lines.length > 2 then arrow 0.18 0.54 0.23 0.60 "" 0.09 else []) ++
  arrow 0.37 0.60 0.45 0.57 "Authorized request" 0 ++
  arrow 0.52 0.70 0.52 0.65 "Policy checks" 0 ++
  actionArrows s.action_lines.length ++
  arrow 0.84 0.63 0.88 0.60 "Read/Write" 0 ++
  arrow 0.84 0.36 0.88 0.28 "Audit event" 0 ++
  arrow 0.88 0.56 0.63 0.53 "Data response" (-0.1) ++
  arrow 0.93 0.48 0.93 0.38 "" 0 ++
  arrow 0.63 0.49 0.46 0.32 "" (-0.12)

/-- `generate_layered_architecture`: the full emission trace of the
proposal architecture diagram (layers, shapes, then arrows). -/
def generate_layered_architecture : List Elem :=
  setup_canvas "Project CLIO - System Architecture"
      "Current implementation view: Security, Client, Identity, API/Services, Data, Audit + Incident Response" ++
  draw_layer 0.02 0.80 0.42 0.18 "Security Layer" ++
  draw_layer 0.46 0.78 0.22 0.20 "Client Layer" ++
  draw_layer 0.70 0.78 0.28 0.20 "Identity Layer" ++
  draw_layer 0.03 0.47 0.44 0.28 "API + Domain Layer" ++
  draw_layer 0.49 0.43 0.24 0.32 "Data Layer" ++
  draw_layer 0.75 0.43 0.23 0.32 "Audit + Incident Layer" ++
  draw_rect 0.05 0.89 0.11 0.055 "RBAC" ++
  draw_rect 0.18 0.89 0.13 0.055 "Ownership / IDOR Check" ++
  draw_rect 0.33 0.89 0.09 0.055 "Rate Limit" ++
  draw_rect 0.05 0.82 0.17 0.055 "CSP + HSTS + Security Headers" ++
  draw_rect 0.24 0.82 0.18 0.055 "Session Validation + Role Sync" ++
  draw_rect 0.50 0.90 0.14 0.055 "Web Browser" ++
  draw_rect 0.50 0.83 0.14 0.055 "Next.js UI (App Router)" ++
  draw_rect 0.50 0.76 0.14 0.055 "Role-Based Sidebar" ++
  draw_rect 0.75 0.90 0.19 0.055 "Firebase Auth (Google)" ++
  draw_rect 0.75 0.83 0.19 0.055 "Invite Verify + Session Issue" ++
  draw_rect 0.75 0.76 0.19 0.055 "Optional MFA Policy" ++
  draw_rect 0.06 0.67 0.18 0.06 "API Routes (/api/hris/*)" ++
  draw_rect 0.26 0.67 0.18 0.06 "Auth/Invite/User APIs" ++
  draw_rect 0.06 0.59 0.18 0.06 "Employee/Lifecycle APIs" ++
  draw_rect 0.26 0.59 0.18 0.06 "Attendance/Performance APIs" ++
  draw_rect 0.06 0.51 0.18 0.06 "Exports/Retention APIs" ++
  draw_rect 0.26 0.51 0.18 0.06 "Incident/Notification APIs" ++
  draw_database 0.53 0.60 0.16 0.11 "Firestore" "databaseId: cliohris" ++
  draw_rect 0.51 0.51 0.20 0.06 "Collections: users, employees," ++
  draw_rect 0.51 0.445 0.20 0.06 "attendance, lifecycle, performance," ++
  draw_rect 0.51 0.38 0.20 0.06 "exports, incidents, notifications, audit" ++
  draw_database 0.53 0.28 0.16 0.11 "Firebase Storage" "gs://atracaas-platform-clio" ++
  draw_rect 0.78 0.66 0.17 0.06 "Audit Log Writer" ++
  draw_rect 0.78 0.58 0.17 0.06 "Forensic Log Views" ++
  draw_rect 0.78 0.50 0.17 0.06 "IDS Detection Rules" ++
  draw_rect 0.78 0.42 0.17 0.06 "Retry Queue + Dead Letter" ++
  draw_rect 0.78 0.34 0.17 0.06 "Incident Mgmt + Alerts" ++
  arrow 0.42 0.92 0.50 0.92 "" 0 ++
  arrow 0.64 0.92 0.75 0.92 "" 0 ++
  arrow 0.57 0.83 0.35 0.70 "" (-0.05) ++
  arrow 0.75 0.86 0.44 0.70 "" 0.05 ++
  arrow 0.24 0.67 0.53 0.66 "" 0 ++
  arrow 0.44 0.59 0.53 0.59 "" 0 ++
  arrow 0.44 0.51 0.53 0.51 "" 0 ++
  arrow 0.69 0.64 0.78 0.69 "" 0 ++
  arrow 0.69 0.56 0.78 0.61 "" 0 ++
  arrow 0.69 0.48 0.78 0.53 "" 0 ++
  arrow 0.86 0.50 0.86 0.48 "" 0 ++
  arrow 0.86 0.42 0.86 0.40 "" 0 ++
  arrow 0.78 0.37 0.69 0.34 "" (-0.08) ++
  arrow 0.53 0.33 0.44 0.55 "" 0.08 ++
  arrow 0.29 0.89 0.16 0.72 "" (-0.08)

end Proposal

namespace ArchPng

/-- `draw_box` of the architecture-PNG script: rounded box, bold title
near the top-left, then one text artist holding all body lines joined
with newlines. -/
def draw_box (x y w h : ℚ) (title : String) (lines : List String) : List Elem :=
  [Elem.fancyBox x y w h,
   Elem.text (x + 0.012) (y + h - 0.03) title,
   Elem.text (x + 0.012) (y + h - 0.06) (String.intercalate "\n" lines)]

/-- `arrow` of the architecture-PNG script: a single unlabeled
FancyArrowPatch with arc3 curvature. -/
def arrow (sx sy ex ey curve : ℚ) : List Elem :=
  [Elem.arrowPatch sx sy ex ey curve]

/-- `main` of the architecture-PNG script: the emission trace of the
whole scene in source order — title and subtitle texts, ten boxes,
thirteen arrows, and finally the flow-legend box. -/
def main : List Elem :=
  [Elem.text 0.03 0.965 "Project CLIO - HRIS System Architecture",
   Elem.text 0.03 0.935
     "Next.js + Firebase Auth + Firestore (databaseId: cliohris) + Firebase Storage + RBAC + IDS + Incident Response"] ++
  draw_box 0.03 0.76 0.24 0.16 "Actors / Access Roles"
    ["Super Admin",
     "GRC, HR, EA, Employee",
     "Invite-first onboarding + verified user activation",
     "Role-specific dashboard and module access"] ++
  draw_box 0.31 0.72 0.30 0.22 "Client Layer - Next.js Frontend"
    ["Public: login, invite verify, unauthorized",
     "Workspace: dashboard + role-based module navigation",
     "Core modules: employee records, lifecycle, attendance,",
     "performance, document repo, audit logs, reports/exports,",
     "access management, retention/archive, incident management"] ++
  draw_box 0.66 0.72 0.31 0.22 "Identity Layer - Firebase Authentication"
    ["Google provider for sign-in",
     "Invite verification gate before account usage",
     "ID token verification + session creation path",
     "Optional MFA policy at Firebase project level"] ++
  draw_box 0.03 0.52 0.24 0.20 "Security Gateway"
    ["Middleware route guarding + role route isolation",
     "Signed session cookie + stale session checks",
     "API authorization: RBAC + ownership validation",
     "Rate limiting on sensitive incident endpoints"] ++
  draw_box 0.31 0.50 0.30 0.22 "Application API Layer (src/app/api)"
    ["Auth APIs, invite/verify, user/account management",
     "Module APIs: employees, lifecycle, attendance,",
     "performance, templates, exports, retention, incidents",
     "Notification APIs and role-protected data endpoints"] ++
  draw_box 0.66 0.50 0.31 0.22 "Service / Domain Layer (src/lib + src/services)"
    ["RBAC matrix + permission middleware helpers",
     "HRIS backend services for module workflows",
     "Audit log writer + field-level trace metadata",
     "Incident detection (IDS), queue retry, dead-letter",
     "Security notification and alert dispatch services"] ++
  draw_box 0.31 0.23 0.30 0.21 "Data Layer - Firestore + Storage"
    ["Firestore (databaseId: cliohris):",
     "clio_users, employees, attendance, performance,",
     "employment_lifecycle, clio_audit_logs, incidents,",
     "notifications, retention/archive collections",
     "Storage bucket: gs://atracaas-platform-clio"] ++
  draw_box 0.66 0.23 0.31 0.21 "Security Operations Layer"
    ["Tamper-evident audit trails across CRUD/view/export",
     "Incident management: escalation, 72-hour response,",
     "forensic logging (access, export, admin, delete)",
     "IDS anomaly detection -> auto incident + alerts",
     "Retry queue and dead-letter for failed detections"] ++
  draw_box 0.03 0.24 0.24 0.21 "Compliance + Protection Controls"
    ["Least privilege and segregation of duties",
     "Restricted PII masking + controlled access",
     "Retention/archive policy + delayed purge workflow",
     "Security headers, CSP, HSTS (prod), provider fail-fast"] ++
  arrow 0.27 0.84 0.31 0.83 0 ++
  arrow 0.61 0.83 0.66 0.83 0 ++
  arrow 0.46 0.72 0.46 0.64 0 ++
  arrow 0.20 0.76 0.16 0.62 0 ++
  arrow 0.27 0.62 0.31 0.62 0 ++
  arrow 0.61 0.62 0.66 0.62 0 ++
  arrow 0.46 0.50 0.46 0.44 0 ++
  arrow 0.82 0.50 0.82 0.44 0 ++
  arrow 0.66 0.82 0.55 0.64 0.05 ++
  arrow 0.82 0.72 0.82 0.64 0 ++
  arrow 0.61 0.33 0.66 0.33 0 ++
  arrow 0.31 0.33 0.27 0.33 0 ++
  arrow 0.82 0.23 0.55 0.18 (-0.05) ++
  draw_box 0.03 0.04 0.94 0.14 "Key Runtime Flows"
    ["1) Onboarding/invite flow: authorized role creates user/account context -> invite verification -> Google sign-in enabled.",
     "2) Secure request flow: frontend -> API authz (session, RBAC, ownership, rate-limit) -> domain service -> Firestore/Storage.",
     "3) Security flow: audit event stream -> IDS anomaly detection -> auto incident + in-app alerts + forensic traceability.",
     "4) Data governance flow: offboarding/retention rules move records to archive and enforce controlled post-retention deletion."]

end ArchPng

/-- Number of connectors (FancyArrowPatch elements) in a trace. -/
def connectorCount (es : List Elem) : ℕ := (es.filter Elem.isArrow).length

/-- Origin-y of a rectangle whose origin-x is `x0`, else `none`. -/
def rectYAt (x0 : ℚ) : Elem → Option ℚ
  | .rect x y _ _ => if x = x0 then some y else none
  | _ => none

/-- Origin-y values of all rectangles at origin-x `x0`, in trace order. -/
def rectOriginYsAtX (x0 : ℚ) (es : List Elem) : List ℚ := es.filterMap (rectYAt x0)

/-- Vertical center of a rectangle whose origin-x is `x0`, else `none`. -/
def rectCenterYAt (x0 : ℚ) : Elem → Option ℚ
  | .rect x y _ h => if x = x0 then some (y + h / 2) else none
  | _ => none

/-- Vertical centers of all rectangles at origin-x `x0`, in trace order. -/
def rectCenterYsAtX (x0 : ℚ) (es : List Elem) : List ℚ := es.filterMap (rectCenterYAt x0)

/-- Number of actor boxes: rectangles in the actor column x = 0.04. -/
def actorShapeCount (es : List Elem) : ℕ := (rectOriginYsAtX 0.04 es).length

/-- Number of action-step boxes: rectangles in the action column x = 0.68. -/
def actionShapeCount (es : List Elem) : ℕ := (rectOriginYsAtX 0.68 es).length

/-- End-y of a connector that starts at `(sx, sy)`, else `none`. -/
def arrowEndYAt (sx sy : ℚ) : Elem → Option ℚ
  | .arrowPatch ax ay _ ey _ => if ax = sx ∧ ay = sy then some ey else none
  | _ => none

/-- End-y values of all connectors starting at `(sx, sy)`, in trace order. -/
def arrowEndYsFrom (sx sy : ℚ) (es : List Elem) : List ℚ := es.filterMap (arrowEndYAt sx sy)

/-- Start point and curvature of a connector that ends at `(ex, ey)`,
else `none`. -/
def arrowIntoAt (ex ey : ℚ) : Elem → Option (ℚ × ℚ × ℚ)
  | .arrowPatch sx sy ax ay c => if ax = ex ∧ ay = ey then some (sx, sy, c) else none
  | _ => none

/-- Start points and curvatures of all connectors ending at `(ex, ey)`,
in trace order. -/
def arrowsInto (ex ey : ℚ) (es : List Elem) : List (ℚ × ℚ × ℚ) := es.filterMap (arrowIntoAt ex ey)

/-- Content of a text artist at abscissa `x0`, else `none`. -/
def textAt (x0 : ℚ) : Elem → Option String
  | .text tx _ s => if tx = x0 then some s else none
  | _ => none

/-- Contents of all text artists at abscissa `x0`, in trace order. -/
def textsAtX (x0 : ℚ) (es : List Elem) : List String := es.filterMap (textAt x0)

/-- x-position of a vertical grid line (a plotted segment spanning y
from 0 to 1 at constant x), else `none`. -/
def vertGridX : Elem → Option ℚ
  | .line x1 y1 x2 y2 _ => if y1 = 0 ∧ y2 = 1 ∧ x1 = x2 then some x1 else none
  | _ => none

/-- y-position of a horizontal grid line (a plotted segment spanning x
from 0 to 1 at constant y), else `none`. -/
def horizGridY : Elem → Option ℚ
  | .line x1 y1 x2 y2 _ => if x1 = 0 ∧ x2 = 1 ∧ y1 = y2 then some y1 else none
  | _ => none

/-- `true` when some shape patch occurs at or after the first connector
of the trace, i.e. when a shape is emitted above/after a connector. -/
def shapeAfterConnector (es : List Elem) : Bool :=
  ((es.dropWhile fun e => !e.isArrow).any Elem.isShape)

/-- The spec's worked scenario: two actors, three action steps, two
notes. -/
def scenarioSpec : Proposal.TemplateSpec :=
  ⟨"R", ["A", "B"], "P", ["S1", "S2", "S3"], "D", ["a1"], ["n1", "n2"]⟩

/-- A single-actor, single-action input. -/
def oneActionSpec : Proposal.TemplateSpec :=
  ⟨"R", ["A"], "P", ["S1"], "D", ["a1"], ["n1"]⟩

/-- An over-capacity input: four actors and six action steps. -/
def overflowSpec : Proposal.TemplateSpec :=
  ⟨"R", ["A1", "A2", "A3", "A4"], "P", ["S1", "S2", "S3", "S4", "S5", "S6"], "D", ["a1"], ["n1"]⟩

/-- An input with no actors at all. -/
def noActorSpec : Proposal.TemplateSpec :=
  ⟨"R", [], "P", ["S1", "S2"], "D", ["a1"], ["n1"]⟩

namespace Proposal

lemma filterMap_ite {α : Type} (f : Elem → Option α) (c : Prop) [Decidable c]
    (l1 l2 : List Elem) :
    (if c then l1 else l2).filterMap f = if c then l1.filterMap f else l2.filterMap f := by
  split <;> rfl

lemma filter_ite (p : Elem → Bool) (c : Prop) [Decidable c] (l1 l2 : List Elem) :
    (if c then l1 else l2).filter p = if c then l1.filter p else l2.filter p := by
  split <;> rfl

lemma mem_gridLines {e : Elem} {n : ℕ} (h : e ∈ gridLines n) :
    ∃ a b c d, e = Elem.line a b c d 0 := by
  rcases List.mem_flatMap.mp h with ⟨i, -, hi⟩
  simp only [List.mem_cons, List.not_mem_nil, or_false] at hi
  rcases hi with rfl | rfl
  · exact ⟨_, _, _, _, rfl⟩
  · exact ⟨_, _, _, _, rfl⟩

lemma mem_bulletLines {e : Elem} {x : ℚ} :
    ∀ {ly : ℚ} {l : List String}, e ∈ bulletLines x ly l → ∃ a b s, e = Elem.text a b s := by
  intro ly l
  induction l generalizing ly with
  | nil => intro h; cases h
  | cons hd tl ih =>
      intro h
      rcases List.mem_cons.mp h with rfl | h
      · exact ⟨_, _, _, rfl⟩
      · exact ih h

lemma mem_actorBoxes {e : Elem} :
    ∀ {y : ℚ} {l : List String}, e ∈ actorBoxes y l →
      (∃ y', e = Elem.rect 0.04 y' 0.14 0.08) ∨ (∃ a b s, e = Elem.text a b s) := by
  intro y l
  induction l generalizing y with
  | nil => intro h; cases h
  | cons hd tl ih =>
      intro h
      rcases List.mem_append.mp h with h | h
      · simp only [draw_rect, List.mem_cons, List.not_mem_nil, or_false] at h
        rcases h with rfl | rfl
        · exact Or.inl ⟨_, rfl⟩
        · exact Or.inr ⟨_, _, _, rfl⟩
      · exact ih h

lemma mem_actionBoxes {e : Elem} :
    ∀ {y : ℚ} {l : List String}, e ∈ actionBoxes y l →
      (∃ y', e = Elem.rect 0.68 y' 0.16 0.065) ∨ (∃ a b s, e = Elem.text a b s) := by
  intro y l
  induction l generalizing y with
  | nil => intro h; cases h
  | cons hd tl ih =>
      intro h
      rcases List.mem_append.mp h with h | h
      · simp only [draw_rect, List.mem_cons, List.not_mem_nil, or_false] at h
        rcases h with rfl | rfl
        · exact Or.inl ⟨_, rfl⟩
        · exact Or.inr ⟨_, _, _, rfl⟩
      · exact ih h

lemma mem_actionArrows {e : Elem} {n : ℕ} (h : e ∈ actionArrows n) :
    ∃ cy, e = Elem.arrowPatch 0.63 0.57 0.68 cy 0.02 := by
  rcases List.mem_flatMap.mp h with ⟨cy, -, hi⟩
  simp only [arrow, List.mem_cons] at hi
  rcases hi with rfl | hi
  · exact ⟨cy, rfl⟩
  · simp at hi

lemma gridLines_filterMap_none {α : Type} {f : Elem → Option α}
    (hf : ∀ a b c d, f (Elem.line a b c d 0) = none) (n : ℕ) :
    (gridLines n).filterMap f = [] := by
  refine List.filterMap_eq_nil_iff.mpr fun e he => ?_
  rcases mem_gridLines he with ⟨a, b, c, d, rfl⟩
  exact hf a b c d

lemma bulletLines_filterMap_none {α : Type} {f : Elem → Option α}
    (hf : ∀ a b s, f (Elem.text a b s) = none) (x ly : ℚ) (l : List String) :
    (bulletLines x ly l).filterMap f = [] := by
  refine List.filterMap_eq_nil_iff.mpr fun e he => ?_
  rcases mem_bulletLines he with ⟨a, b, s, rfl⟩
  exact hf a b s

lemma actorBoxes_filterMap_none {α : Type} {f : Elem → Option α}
    (hr : ∀ y', f (Elem.rect 0.04 y' 0.14 0.08) = none)
    (ht : ∀ a b s, f (Elem.text a b s) = none) (y : ℚ) (l : List String) :
    (actorBoxes y l).filterMap f = [] := by
  refine List.filterMap_eq_nil_iff.mpr fun e he => ?_
  rcases mem_actorBoxes he with ⟨y', rfl⟩ | ⟨a, b, s, rfl⟩
  · exact hr y'
  · exact ht a b s

lemma actionBoxes_filterMap_none {α : Type} {f : Elem → Option α}
    (hr : ∀ y', f (Elem.rect 0.68 y' 0.16 0.065) = none)
    (ht : ∀ a b s, f (Elem.text a b s) = none) (y : ℚ) (l : List String) :
    (actionBoxes y l).filterMap f = [] := by
  refine List.filterMap_eq_nil_iff.mpr fun e he => ?_
  rcases mem_actionBoxes he with ⟨y', rfl⟩ | ⟨a, b, s, rfl⟩
  · exact hr y'
  · exact ht a b s

lemma actionArrows_filterMap_none {α : Type} {f : Elem → Option α}
    (hf : ∀ cy, f (Elem.arrowPatch 0.63 0.57 0.68 cy 0.02) = none) (n : ℕ) :
    (actionArrows n).filterMap f = [] := by
  refine List.filterMap_eq_nil_iff.mpr fun e he => ?_
  rcases mem_actionArrows he with ⟨cy, rfl⟩
  exact hf cy

lemma cc_nil : connectorCount [] = 0 := rfl

lemma connectorCount_append (a b : List Elem) :
    connectorCount (a ++ b) = connectorCount a + connectorCount b := by
  simp [connectorCount, List.filter_append]

lemma connectorCount_eq_zero {l : List Elem} (h : ∀ e ∈ l, e.isArrow = false) :
    connectorCount l = 0 := by
  have : l.filter Elem.isArrow = [] :=
    List.filter_eq_nil_iff.mpr fun e he => by simp [h e he]
  simp [connectorCount, this]

lemma cc_ite (c : Prop) [Decidable c] (l1 l2 : List Elem) :
    connectorCount (if c then l1 else l2) =
      if c then connectorCount l1 else connectorCount l2 := by
  split <;> rfl

lemma cc_gridLines (n : ℕ) : connectorCount (gridLines n) = 0 :=
  connectorCount_eq_zero fun e he => by
    rcases mem_gridLines he with ⟨a, b, c, d, rfl⟩; rfl

lemma cc_setup (t s : String) : connectorCount (setup_canvas t s) = 0 := by
  rw [setup_canvas, connectorCount_append, connectorCount_append, cc_gridLines, cc_ite]
  split <;> rfl

lemma cc_draw_rect (x y w h : ℚ) (s : String) : connectorCount (draw_rect x y w h s) = 0 := rfl

lemma cc_draw_ellipse (x y w h : ℚ) (s : String) :
    connectorCount (draw_ellipse x y w h s) = 0 := rfl

lemma cc_draw_layer (x y w h : ℚ) (s : String) : connectorCount (draw_layer x y w h s) = 0 := rfl

lemma cc_draw_database (x y w h : ℚ) (t st : String) :
    connectorCount (draw_database x y w h t st) = 0 := by
  rw [draw_database, connectorCount_append, cc_ite]
  split <;> rfl

lemma cc_bulletLines (x ly : ℚ) (l : List String) : connectorCount (bulletLines x ly l) = 0 :=
  connectorCount_eq_zero fun e he => by
    rcases mem_bulletLines he with ⟨a, b, s, rfl⟩; rfl

lemma cc_bullet_panel (x y w h : ℚ) (t : String) (l : List String) :
    connectorCount (draw_bullet_panel x y w h t l) = 0 := by
  rw [draw_bullet_panel, connectorCount_append, cc_bulletLines]
  rfl

lemma cc_actorBoxes (y : ℚ) (l : List String) : connectorCount (actorBoxes y l) = 0 :=
  connectorCount_eq_zero fun e he => by
    rcases mem_actorBoxes he with ⟨y', rfl⟩ | ⟨a, b, s, rfl⟩ <;> rfl

lemma cc_actionBoxes (y : ℚ) (l : List String) : connectorCount (actionBoxes y l) = 0 :=
  connectorCount_eq_zero fun e he => by
    rcases mem_actionBoxes he with ⟨y', rfl⟩ | ⟨a, b, s, rfl⟩ <;> rfl

lemma cc_arrow (sx sy ex ey c : ℚ) (lb : String) : connectorCount (arrow sx sy ex ey lb c) = 1 := by
  by_cases h : lb = "" <;> simp [arrow, h, connectorCount, Elem.isArrow]

lemma cc_flatMap_arrows (cs : List ℚ) :
    connectorCount (cs.flatMap fun cy => arrow 0.63 0.57 0.68 cy "" 0.02) = cs.length := by
  induction cs with
  | nil => rfl
  | cons hd tl ih =>
      rw [List.flatMap_cons, connectorCount_append, ih, cc_arrow, List.length_cons]
      omega

lemma cc_actionArrows (n : ℕ) : connectorCount (actionArrows n) = min n 5 := by
  rw [actionArrows, cc_flatMap_arrows, List.length_take]
  rfl

/-- Total connector count of a role DFD as a function of the input
cardinalities: one unconditional actor arrow, up to two conditional
converging actor arrows, one ellipse arrow per action step capped at the
five table slots, and seven fixed skeleton arrows. -/
lemma connectorCount_dfd (s : TemplateSpec) :
    connectorCount (generate_role_dfd s) =
      1 + (if 1 < s.actor_lines.length then 1 else 0)
        + (if 2 < s.actor_lines.length then 1 else 0)
        + min s.action_lines.length 5 + 7 := by
  rw [generate_role_dfd]
  simp only [connectorCount_append, cc_setup, cc_actorBoxes, cc_draw_rect, cc_draw_ellipse,
    cc_actionBoxes, cc_draw_database, cc_bullet_panel, cc_arrow, cc_ite, cc_actionArrows, cc_nil]
  split_ifs <;> simp <;> omega

lemma setup_filterMap_none {α : Type} {f : Elem → Option α}
    (hline : ∀ a b c d, f (Elem.line a b c d 0) = none)
    (ht : ∀ a b s, f (Elem.text a b s) = none) (t st : String) :
    (setup_canvas t st).filterMap f = [] := by
  rw [setup_canvas, List.filterMap_append, List.filterMap_append,
    gridLines_filterMap_none hline, filterMap_ite]
  simp [ht]

lemma bullet_filterMap_none {α : Type} {f : Elem → Option α}
    (hb : ∀ a b c d, f (Elem.fancyBox a b c d) = none)
    (ht : ∀ a b s, f (Elem.text a b s) = none) (x y w h : ℚ) (t : String) (l : List String) :
    (draw_bullet_panel x y w h t l).filterMap f = [] := by
  rw [draw_bullet_panel, List.filterMap_append, bulletLines_filterMap_none ht]
  simp [hb, ht]

lemma database_filterMap_none {α : Type} {f : Elem → Option α} (x y w h : ℚ) (t st : String)
    (hr : f (Elem.rect x (y + 0.025) w (h - 0.05)) = none)
    (he : ∀ cx cy ww hh, f (Elem.ellipse cx cy ww hh) = none)
    (ht : ∀ a b s, f (Elem.text a b s) = none) :
    (draw_database x y w h t st).filterMap f = [] := by
  rw [draw_database, List.filterMap_append, filterMap_ite]
  simp [hr, he, ht]

lemma arrow_filterMap_none {α : Type} {f : Elem → Option α} (sx sy ex ey c : ℚ) (lb : String)
    (ha : f (Elem.arrowPatch sx sy ex ey c) = none)
    (ht : ∀ a b s, f (Elem.text a b s) = none) :
    (arrow sx sy ex ey lb c).filterMap f = [] := by
  rw [arrow]
  simp [List.filterMap_cons, ha, ht, filterMap_ite]

lemma arrow_filterMap_some {α : Type} {f : Elem → Option α} (sx sy ex ey c : ℚ) (lb : String)
    (v : α) (ha : f (Elem.arrowPatch sx sy ex ey c) = some v)
    (ht : ∀ a b s, f (Elem.text a b s) = none) :
    (arrow sx sy ex ey lb c).filterMap f = [v] := by
  rw [arrow]
  simp [List.filterMap_cons, ha, ht, filterMap_ite]

lemma draw_rect_filterMap_none {α : Type} {f : Elem → Option α} (x y w h : ℚ) (s : String)
    (hr : f (Elem.rect x y w h) = none)
    (ht : ∀ a b s', f (Elem.text a b s') = none) :
    (draw_rect x y w h s).filterMap f = [] := by
  simp [draw_rect, hr, ht]

lemma draw_rect_filterMap_some {α : Type} {f : Elem → Option α} (x y w h : ℚ) (s : String)
    (v : α) (hr : f (Elem.rect x y w h) = some v)
    (ht : ∀ a b s', f (Elem.text a b s') = none) :
    (draw_rect x y w h s).filterMap f = [v] := by
  simp [draw_rect, hr, ht]

lemma draw_ellipse_filterMap_none {α : Type} {f : Elem → Option α} (x y w h : ℚ) (s : String)
    (he : ∀ cx cy ww hh, f (Elem.ellipse cx cy ww hh) = none)
    (ht : ∀ a b s', f (Elem.text a b s') = none) :
    (draw_ellipse x y w h s).filterMap f = [] := by
  simp [draw_ellipse, he, ht]

lemma actorBoxes_rectYs : ∀ (l : List String) (y : ℚ),
    (actorBoxes y l).filterMap (rectYAt 0.04) =
      (List.range l.length).map fun i : ℕ => y - 0.11 * (i : ℚ) := by
  intro l
  induction l with
  | nil => intro y; rfl
  | cons hd tl ih =>
      intro y
      rw [actorBoxes, List.filterMap_append, ih, List.length_cons,
        List.range_succ_eq_map, List.map_cons, List.map_map,
        draw_rect_filterMap_some _ _ _ _ _ y (by simp [rectYAt]) (by intros; rfl),
        List.singleton_append]
      refine List.cons_eq_cons.mpr ⟨by norm_num, List.map_congr_left fun a _ => ?_⟩
      simp only [Function.comp_apply]
      push_cast
      ring

lemma actionBoxes_rectYs : ∀ (l : List String) (y : ℚ),
    (actionBoxes y l).filterMap (rectYAt 0.68) =
      (List.range l.length).map fun i : ℕ => y - 0.09 * (i : ℚ) := by
  intro l
  induction l with
  | nil => intro y; rfl
  | cons hd tl ih =>
      intro y
      rw [actionBoxes, List.filterMap_append, ih, List.length_cons,
        List.range_succ_eq_map, List.map_cons, List.map_map,
        draw_rect_filterMap_some _ _ _ _ _ y (by simp [rectYAt]) (by intros; rfl),
        List.singleton_append]
      refine List.cons_eq_cons.mpr ⟨by norm_num, List.map_congr_left fun a _ => ?_⟩
      simp only [Function.comp_apply]
      push_cast
      ring

lemma actionBoxes_centerYs : ∀ (l : List String) (y : ℚ),
    (actionBoxes y l).filterMap (rectCenterYAt 0.68) =
      (List.range l.length).map fun i : ℕ => y + 0.065 / 2 - 0.09 * (i : ℚ) := by
  intro l
  induction l with
  | nil => intro y; rfl
  | cons hd tl ih =>
      intro y
      rw [actionBoxes, List.filterMap_append, ih, List.length_cons,
        List.range_succ_eq_map, List.map_cons, List.map_map,
        draw_rect_filterMap_some _ _ _ _ _ (y + 0.065 / 2) (by simp [rectCenterYAt]) (by intros; rfl),
        List.singleton_append]
      refine List.cons_eq_cons.mpr ⟨by norm_num, List.map_congr_left fun a _ => ?_⟩
      simp only [Function.comp_apply]
      push_cast
      ring

lemma flatMap_arrows_endYs (cs : List ℚ) :
    (cs.flatMap fun cy => arrow 0.63 0.57 0.68 cy "" 0.02).filterMap (arrowEndYAt 0.63 0.57) =
      cs := by
  induction cs with
  | nil => rfl
  | cons hd tl ih =>
      rw [List.flatMap_cons, List.filterMap_append, ih,
        arrow_filterMap_some 0.63 0.57 0.68 hd 0.02 "" hd (by simp [arrowEndYAt])
          (by intros; rfl),
        List.singleton_append]

lemma actionArrows_endYs (n : ℕ) :
    (actionArrows n).filterMap (arrowEndYAt 0.63 0.57) = action_centers.take n :=
  flatMap_arrows_endYs _


lemma rectY_setup (x0 : ℚ) (t st : String) :
    (setup_canvas t st).filterMap (rectYAt x0) = [] :=
  setup_filterMap_none (fun _ _ _ _ => rfl) (fun _ _ _ => rfl) t st

lemma rectY_bullet (x0 x y w h : ℚ) (t : String) (l : List String) :
    (draw_bullet_panel x y w h t l).filterMap (rectYAt x0) = [] :=
  bullet_filterMap_none (fun _ _ _ _ => rfl) (fun _ _ _ => rfl) x y w h t l

lemma rectY_ellipse (x0 x y w h : ℚ) (s : String) :
    (draw_ellipse x y w h s).filterMap (rectYAt x0) = [] :=
  draw_ellipse_filterMap_none x y w h s (fun _ _ _ _ => rfl) (fun _ _ _ => rfl)

lemma rectY_arrow (x0 sx sy ex ey c : ℚ) (lb : String) :
    (arrow sx sy ex ey lb c).filterMap (rectYAt x0) = [] :=
  arrow_filterMap_none sx sy ex ey c lb rfl (fun _ _ _ => rfl)

lemma rectY_actionArrows (x0 : ℚ) (n : ℕ) :
    (actionArrows n).filterMap (rectYAt x0) = [] :=
  actionArrows_filterMap_none (fun _ => rfl) n

lemma rectY_database (x0 x y w h : ℚ) (t st : String) (hx : x ≠ x0) :
    (draw_database x y w h t st).filterMap (rectYAt x0) = [] :=
  database_filterMap_none x y w h t st (by simp [rectYAt, hx])
    (fun _ _ _ _ => rfl) (fun _ _ _ => rfl)

lemma rectY_rect_ne (x0 x y w h : ℚ) (s : String) (hx : x ≠ x0) :
    (draw_rect x y w h s).filterMap (rectYAt x0) = [] :=
  draw_rect_filterMap_none x y w h s (by simp [rectYAt, hx]) (fun _ _ _ => rfl)

lemma rectY_actorBoxes_ne (x0 : ℚ) (hx : (0.04 : ℚ) ≠ x0) (y : ℚ) (l : List String) :
    (actorBoxes y l).filterMap (rectYAt x0) = [] :=
  actorBoxes_filterMap_none (fun _ => by simp [rectYAt, hx]) (fun _ _ _ => rfl) y l

lemma rectY_actionBoxes_ne (x0 : ℚ) (hx : (0.68 : ℚ) ≠ x0) (y : ℚ) (l : List String) :
    (actionBoxes y l).filterMap (rectYAt x0) = [] :=
  actionBoxes_filterMap_none (fun _ => by simp [rectYAt, hx]) (fun _ _ _ => rfl) y l

lemma rcY_setup (x0 : ℚ) (t st : String) :
    (setup_canvas t st).filterMap (rectCenterYAt x0) = [] :=
  setup_filterMap_none (fun _ _ _ _ => rfl) (fun _ _ _ => rfl) t st

lemma rcY_bullet (x0 x y w h : ℚ) (t : String) (l : List String) :
    (draw_bullet_panel x y w h t l).filterMap (rectCenterYAt x0) = [] :=
  bullet_filterMap_none (fun _ _ _ _ => rfl) (fun _ _ _ => rfl) x y w h t l

lemma rcY_ellipse (x0 x y w h : ℚ) (s : String) :
    (draw_ellipse x y w h s).filterMap (rectCenterYAt x0) = [] :=
  draw_ellipse_filterMap_none x y w h s (fun _ _ _ _ => rfl) (fun _ _ _ => rfl)

lemma rcY_arrow (x0 sx sy ex ey c : ℚ) (lb : String) :
    (arrow sx sy ex ey lb c).filterMap (rectCenterYAt x0) = [] :=
  arrow_filterMap_none sx sy ex ey c lb rfl (fun _ _ _ => rfl)

lemma rcY_actionArrows (x0 : ℚ) (n : ℕ) :
    (actionArrows n).filterMap (rectCenterYAt x0) = [] :=
  actionArrows_filterMap_none (fun _ => rfl) n

lemma rcY_database (x0 x y w h : ℚ) (t st : String) (hx : x ≠ x0) :
    (draw_database x y w h t st).filterMap (rectCenterYAt x0) = [] :=
  database_filterMap_none x y w h t st (by simp [rectCenterYAt, hx])
    (fun _ _ _ _ => rfl) (fun _ _ _ => rfl)

lemma rcY_rect_ne (x0 x y w h : ℚ) (s : String) (hx : x ≠ x0) :
    (draw_rect x y w h s).filterMap (rectCenterYAt x0) = [] :=
  draw_rect_filterMap_none x y w h s (by simp [rectCenterYAt, hx]) (fun _ _ _ => rfl)

lemma rcY_actorBoxes_ne (x0 : ℚ) (hx : (0.04 : ℚ) ≠ x0) (y : ℚ) (l : List String) :
    (actorBoxes y l).filterMap (rectCenterYAt x0) = [] :=
  actorBoxes_filterMap_none (fun _ => by simp [rectCenterYAt, hx]) (fun _ _ _ => rfl) y l

/-- Actor-box origin ys of a full role DFD: only the actor loop
contributes rectangles in the x = 0.04 column. -/
lemma actorYs_dfd (s : TemplateSpec) :
    rectOriginYsAtX 0.04 (generate_role_dfd s) =
      (List.range s.actor_lines.length).map fun i : ℕ => 0.72 - 0.11 * (i : ℚ) := by
  rw [rectOriginYsAtX, generate_role_dfd]
  simp only [List.filterMap_append, filterMap_ite, List.filterMap_nil]
  rw [rectY_setup, actorBoxes_rectYs,
    rectY_rect_ne _ _ _ _ _ _ (by norm_num), rectY_ellipse,
    rectY_rect_ne _ _ _ _ _ _ (by norm_num),
    rectY_actionBoxes_ne _ (by norm_num),
    rectY_database _ _ _ _ _ _ _ (by norm_num),
    rectY_database _ _ _ _ _ _ _ (by norm_num),
    rectY_bullet, rectY_bullet, rectY_actionArrows]
  simp only [rectY_arrow, ite_self]
  simp

/-- Action-box origin ys of a full role DFD: only the action loop
contributes rectangles in the x = 0.68 column. -/
lemma actionYs_dfd (s : TemplateSpec) :
    rectOriginYsAtX 0.68 (generate_role_dfd s) =
      (List.range s.action_lines.length).map fun i : ℕ => 0.73 - 0.09 * (i : ℚ) := by
  rw [rectOriginYsAtX, generate_role_dfd]
  simp only [List.filterMap_append, filterMap_ite, List.filterMap_nil]
  rw [rectY_setup, rectY_actorBoxes_ne _ (by norm_num),
    rectY_rect_ne _ _ _ _ _ _ (by norm_num), rectY_ellipse,
    rectY_rect_ne _ _ _ _ _ _ (by norm_num),
    actionBoxes_rectYs,
    rectY_database _ _ _ _ _ _ _ (by norm_num),
    rectY_database _ _ _ _ _ _ _ (by norm_num),
    rectY_bullet, rectY_bullet, rectY_actionArrows]
  simp only [rectY_arrow, ite_self]
  simp

/-- Action-box center ys of a full role DFD. -/
lemma actionCenterYs_dfd (s : TemplateSpec) :
    rectCenterYsAtX 0.68 (generate_role_dfd s) =
      (List.range s.action_lines.length).map fun i : ℕ => 0.73 + 0.065 / 2 - 0.09 * (i : ℚ) := by
  rw [rectCenterYsAtX, generate_role_dfd]
  simp only [List.filterMap_append, filterMap_ite, List.filterMap_nil]
  rw [rcY_setup, rcY_actorBoxes_ne _ (by norm_num),
    rcY_rect_ne _ _ _ _ _ _ (by norm_num), rcY_ellipse,
    rcY_rect_ne _ _ _ _ _ _ (by norm_num),
    actionBoxes_centerYs,
    rcY_database _ _ _ _ _ _ _ (by norm_num),
    rcY_database _ _ _ _ _ _ _ (by norm_num),
    rcY_bullet, rcY_bullet, rcY_actionArrows]
  simp only [rcY_arrow, ite_self]
  simp

/-- Actor shape count of a full role DFD equals the actor list length. -/
lemma actorShapeCount_dfd (s : TemplateSpec) :
    actorShapeCount (generate_role_dfd s) = s.actor_lines.length := by
  rw [actorShapeCount, rectOriginYsAtX, ← rectOriginYsAtX, actorYs_dfd]
  simp

/-- Action shape count of a full role DFD equals the action list length. -/
lemma actionShapeCount_dfd (s : TemplateSpec) :
    actionShapeCount (generate_role_dfd s) = s.action_lines.length := by
  rw [actionShapeCount, rectOriginYsAtX, ← rectOriginYsAtX, actionYs_dfd]
  simp


lemma aEnd_setup (p q : ℚ) (t st : String) :
    (setup_canvas t st).filterMap (arrowEndYAt p q) = [] :=
  setup_filterMap_none (fun _ _ _ _ => rfl) (fun _ _ _ => rfl) t st

lemma aEnd_bullet (p q x y w h : ℚ) (t : String) (l : List String) :
    (draw_bullet_panel x y w h t l).filterMap (arrowEndYAt p q) = [] :=
  bullet_filterMap_none (fun _ _ _ _ => rfl) (fun _ _ _ => rfl) x y w h t l

lemma aEnd_ellipse (p q x y w h : ℚ) (s : String) :
    (draw_ellipse x y w h s).filterMap (arrowEndYAt p q) = [] :=
  draw_ellipse_filterMap_none x y w h s (fun _ _ _ _ => rfl) (fun _ _ _ => rfl)

lemma aEnd_database (p q x y w h : ℚ) (t st : String) :
    (draw_database x y w h t st).filterMap (arrowEndYAt p q) = [] :=
  database_filterMap_none x y w h t st rfl (fun _ _ _ _ => rfl) (fun _ _ _ => rfl)

lemma aEnd_rect (p q x y w h : ℚ) (s : String) :
    (draw_rect x y w h s).filterMap (arrowEndYAt p q) = [] :=
  draw_rect_filterMap_none x y w h s rfl (fun _ _ _ => rfl)

lemma aEnd_actorBoxes (p q y : ℚ) (l : List String) :
    (actorBoxes y l).filterMap (arrowEndYAt p q) = [] :=
  actorBoxes_filterMap_none (fun _ => rfl) (fun _ _ _ => rfl) y l

lemma aEnd_actionBoxes (p q y : ℚ) (l : List String) :
    (actionBoxes y l).filterMap (arrowEndYAt p q) = [] :=
  actionBoxes_filterMap_none (fun _ => rfl) (fun _ _ _ => rfl) y l

lemma aEnd_arrow_ne (p q sx sy ex ey c : ℚ) (lb : String) (h : ¬(sx = p ∧ sy = q)) :
    (arrow sx sy ex ey lb c).filterMap (arrowEndYAt p q) = [] :=
  arrow_filterMap_none sx sy ex ey c lb (by simp [arrowEndYAt, h]) (fun _ _ _ => rfl)

/-- Connector end-ys out of the process ellipse anchor (0.63, 0.57) of a
full role DFD: exactly the consumed prefix of the fixed center table. -/
lemma arrowEndYs_dfd (s : TemplateSpec) :
    arrowEndYsFrom 0.63 0.57 (generate_role_dfd s) =
      action_centers.take s.action_lines.length := by
  rw [arrowEndYsFrom, generate_role_dfd]
  simp only [List.filterMap_append, filterMap_ite, List.filterMap_nil]
  rw [aEnd_setup, aEnd_actorBoxes, aEnd_rect, aEnd_ellipse, aEnd_rect, aEnd_actionBoxes,
    aEnd_database, aEnd_database, aEnd_bullet, aEnd_bullet,
    aEnd_arrow_ne _ _ _ _ _ _ _ _ (by norm_num),
    aEnd_arrow_ne _ _ _ _ _ _ _ _ (by norm_num),
    aEnd_arrow_ne _ _ _ _ _ _ _ _ (by norm_num),
    aEnd_arrow_ne _ _ _ _ _ _ _ _ (by norm_num),
    aEnd_arrow_ne _ _ _ _ _ _ _ _ (by norm_num),
    actionArrows_endYs,
    aEnd_arrow_ne _ _ _ _ _ _ _ _ (by norm_num),
    aEnd_arrow_ne _ _ _ _ _ _ _ _ (by norm_num),
    aEnd_arrow_ne _ _ _ _ _ _ _ _ (by norm_num),
    aEnd_arrow_ne _ _ _ _ _ _ _ _ (by norm_num),
    aEnd_arrow_ne _ _ _ _ _ _ _ _ (by norm_num)]
  simp

lemma aInto_setup (p q : ℚ) (t st : String) :
    (setup_canvas t st).filterMap (arrowIntoAt p q) = [] :=
  setup_filterMap_none (fun _ _ _ _ => rfl) (fun _ _ _ => rfl) t st

lemma aInto_bullet (p q x y w h : ℚ) (t : String) (l : List String) :
    (draw_bullet_panel x y w h t l).filterMap (arrowIntoAt p q) = [] :=
  bullet_filterMap_none (fun _ _ _ _ => rfl) (fun _ _ _ => rfl) x y w h t l

lemma aInto_ellipse (p q x y w h : ℚ) (s : String) :
    (draw_ellipse x y w h s).filterMap (arrowIntoAt p q) = [] :=
  draw_ellipse_filterMap_none x y w h s (fun _ _ _ _ => rfl) (fun _ _ _ => rfl)

lemma aInto_database (p q x y w h : ℚ) (t st : String) :
    (draw_database x y w h t st).filterMap (arrowIntoAt p q) = [] :=
  database_filterMap_none x y w h t st rfl (fun _ _ _ _ => rfl) (fun _ _ _ => rfl)

lemma aInto_rect (p q x y w h : ℚ) (s : String) :
    (draw_rect x y w h s).filterMap (arrowIntoAt p q) = [] :=
  draw_rect_filterMap_none x y w h s rfl (fun _ _ _ => rfl)

lemma aInto_actorBoxes (p q y : ℚ) (l : List String) :
    (actorBoxes y l).filterMap (arrowIntoAt p q) = [] :=
  actorBoxes_filterMap_none (fun _ => rfl) (fun _ _ _ => rfl) y l

lemma aInto_actionBoxes (p q y : ℚ) (l : List String) :
    (actionBoxes y l).filterMap (arrowIntoAt p q) = [] :=
  actionBoxes_filterMap_none (fun _ => rfl) (fun _ _ _ => rfl) y l

lemma aInto_arrow_ne (p q sx sy ex ey c : ℚ) (lb : String) (h : ¬(ex = p ∧ ey = q)) :
    (arrow sx sy ex ey lb c).filterMap (arrowIntoAt p q) = [] :=
  arrow_filterMap_none sx sy ex ey c lb (by simp [arrowIntoAt, h]) (fun _ _ _ => rfl)

lemma aInto_arrow_eq (p q sx sy ex ey c : ℚ) (lb : String) (h1 : ex = p) (h2 : ey = q) :
    (arrow sx sy ex ey lb c).filterMap (arrowIntoAt p q) = [(sx, sy, c)] :=
  arrow_filterMap_some sx sy ex ey c lb (sx, sy, c) (by simp [arrowIntoAt, h1, h2])
    (fun _ _ _ => rfl)

lemma aInto_actionArrows_ne (p q : ℚ) (hp : (0.68 : ℚ) ≠ p) (n : ℕ) :
    (actionArrows n).filterMap (arrowIntoAt p q) = [] :=
  actionArrows_filterMap_none (fun cy => by simp [arrowIntoAt, hp]) n

/-- Connectors converging into the gateway anchor (0.23, 0.60) of a full
role DFD: the unconditional straight "Access" arrow from the first-actor
anchor, then the conditional curved arrows for actor positions 2 and 3. -/
lemma arrowsIntoGateway_dfd (s : TemplateSpec) :
    arrowsInto 0.23 0.60 (generate_role_dfd s) =
      ((0.18 : ℚ), (0.76 : ℚ), (0 : ℚ)) ::
        ((if 1 < s.actor_lines.length then [((0.18 : ℚ), (0.65 : ℚ), (0.05 : ℚ))] else []) ++
          (if 2 < s.actor_lines.length then [((0.18 : ℚ), (0.54 : ℚ), (0.09 : ℚ))] else [])) := by
  rw [arrowsInto, generate_role_dfd]
  simp only [List.filterMap_append, filterMap_ite, List.filterMap_nil]
  rw [aInto_setup, aInto_actorBoxes, aInto_rect, aInto_ellipse, aInto_rect, aInto_actionBoxes,
    aInto_database, aInto_database, aInto_bullet, aInto_bullet,
    aInto_arrow_eq _ _ _ _ _ _ _ _ rfl rfl,
    aInto_arrow_eq _ _ _ _ _ _ _ _ rfl rfl,
    aInto_arrow_eq _ _ _ _ _ _ _ _ rfl rfl,
    aInto_arrow_ne _ _ _ _ _ _ _ _ (by norm_num),
    aInto_arrow_ne _ _ _ _ _ _ _ _ (by norm_num),
    aInto_actionArrows_ne _ _ (by norm_num),
    aInto_arrow_ne _ _ _ _ _ _ _ _ (by norm_num),
    aInto_arrow_ne _ _ _ _ _ _ _ _ (by norm_num),
    aInto_arrow_ne _ _ _ _ _ _ _ _ (by norm_num),
    aInto_arrow_ne _ _ _ _ _ _ _ _ (by norm_num),
    aInto_arrow_ne _ _ _ _ _ _ _ _ (by norm_num)]
  simp

/-- The "Access" label text of a full role DFD, at the chord midpoint of
the first-actor arrow shifted up by 0.012. -/
lemma access_text_mem (s : TemplateSpec) :
    Elem.text 0.205 0.692 "Access" ∈ generate_role_dfd s := by
  have h : Elem.text 0.205 0.692 "Access" ∈ arrow 0.18 0.76 0.23 0.60 "Access" 0 := by
    norm_num [arrow]
    exact Or.inr (by decide)
  rw [generate_role_dfd]
  simp only [List.mem_append]
  tauto

/-- The unconditional "Access" arrow patch of a full role DFD. -/
lemma access_arrow_mem (s : TemplateSpec) :
    Elem.arrowPatch 0.18 0.76 0.23 0.60 0 ∈ generate_role_dfd s := by
  have h : Elem.arrowPatch 0.18 0.76 0.23 0.60 0 ∈ arrow 0.18 0.76 0.23 0.60 "Access" 0 :=
    List.mem_cons_self _ _
  rw [generate_role_dfd]
  simp only [List.mem_append]
  tauto


lemma no_arrow_of_cc_zero {l : List Elem} (h : connectorCount l = 0) :
    ∀ e ∈ l, e.isArrow = false := by
  rw [connectorCount, List.length_eq_zero] at h
  intro e he
  have h2 := List.filter_eq_nil_iff.mp h e he
  simpa using h2

lemma dropWhile_append_all (p : Elem → Bool) (P Q : List Elem) (hP : ∀ e ∈ P, p e = true) :
    (P ++ Q).dropWhile p = Q.dropWhile p := by
  induction P with
  | nil => rfl
  | cons a t ih =>
      rw [List.cons_append, List.dropWhile_cons, if_pos (hP a (List.mem_cons_self a t))]
      exact ih fun e he => hP e (List.mem_cons_of_mem a he)

lemma shapeAfter_false_of_split {P Q : List Elem} (hP : ∀ e ∈ P, e.isArrow = false)
    (hQ : ∀ e ∈ Q, e.isShape = false) : shapeAfterConnector (P ++ Q) = false := by
  rw [shapeAfterConnector, dropWhile_append_all _ _ _ (fun e he => by simp [hP e he])]
  refine List.any_eq_false.mpr fun x hx => ?_
  have hxQ : x ∈ Q := (List.dropWhile_sublist _).subset hx
  simp [hQ x hxQ]

lemma forall_mem_ite {p : Elem → Prop} (c : Prop) [Decidable c] {l1 l2 : List Elem}
    (h1 : ∀ e ∈ l1, p e) (h2 : ∀ e ∈ l2, p e) : ∀ e ∈ (if c then l1 else l2), p e := by
  split
  · exact h1
  · exact h2

lemma arrow_no_shape (sx sy ex ey c : ℚ) (lb : String) :
    ∀ e ∈ arrow sx sy ex ey lb c, e.isShape = false := by
  intro e he
  rw [arrow] at he
  rcases List.mem_cons.mp he with rfl | he
  · rfl
  · rcases Decidable.em (lb = "") with h | h
    · rw [if_pos h] at he; cases he
    · rw [if_neg h] at he
      rcases List.mem_cons.mp he with rfl | he
      · rfl
      · cases he

lemma actionArrows_no_shape (n : ℕ) : ∀ e ∈ actionArrows n, e.isShape = false := by
  intro e he
  rcases mem_actionArrows he with ⟨cy, rfl⟩
  rfl

/-- In a full role DFD, no shape patch is ever emitted at or after a
connector: all shapes precede all connectors. -/
lemma shapeAfter_dfd (s : TemplateSpec) :
    shapeAfterConnector (generate_role_dfd s) = false := by
  have hsplit : generate_role_dfd s =
      (setup_canvas (s.role_title ++ " Data Flow Diagram")
          "Project CLIO Role-Centric Operational Flow" ++
        (actorBoxes 0.72 s.actor_lines ++
          (draw_rect 0.23 0.56 0.14 0.08 s.role_title ++
            (draw_ellipse 0.45 0.49 0.18 0.16 s.process_label ++
              (draw_rect 0.41 0.70 0.22 0.06 "RBAC + Ownership Validation" ++
                (actionBoxes 0.73 s.action_lines ++
                  (draw_database 0.88 0.48 0.09 0.22 "CLIO DB" s.db_label ++
                    (draw_database 0.88 0.18 0.09 0.20 "Audit Logs" "Tamper-resistant" ++
                      (draw_bullet_panel 0.25 0.16 0.29 0.16 "Audit Focus" s.audit_lines ++
                        draw_bullet_panel 0.56 0.16 0.22 0.16 "Security Notes" s.notes))))))))) ++
      (arrow 0.18 0.76 0.23 0.60 "Access" 0 ++
        ((if s.actor_lines.length > 1 then arrow 0.18 0.65 0.23 0.60 "" 0.05 else []) ++
          ((if s.actor_lines.length > 2 then arrow 0.18 0.54 0.23 0.60 "" 0.09 else []) ++
            (arrow 0.37 0.60 0.45 0.57 "Authorized request" 0 ++
              (arrow 0.52 0.70 0.52 0.65 "Policy checks" 0 ++
                (actionArrows s.action_lines.length ++
                  (arrow 0.84 0.63 0.88 0.60 "Read/Write" 0 ++
                    (arrow 0.84 0.36 0.88 0.28 "Audit event" 0 ++
                      (arrow 0.88 0.56 0.63 0.53 "Data response" (-0.1) ++
                        (arrow 0.93 0.48 0.93 0.38 "" 0 ++
                          arrow 0.63 0.49 0.46 0.32 "" (-0.12))))))))))) := by
    rw [generate_role_dfd]
    simp only [List.append_assoc]
  rw [hsplit]
  refine shapeAfter_false_of_split (no_arrow_of_cc_zero ?_) ?_
  · simp only [connectorCount_append, cc_setup, cc_actorBoxes, cc_draw_rect, cc_draw_ellipse,
      cc_actionBoxes, cc_draw_database, cc_bullet_panel]
  · intro e he
    simp only [List.mem_append] at he
    rcases he with h | h | h | h | h | h | h | h | h | h | h
    · exact arrow_no_shape _ _ _ _ _ _ e h
    · exact forall_mem_ite _ (arrow_no_shape _ _ _ _ _ _)
        (fun e h => absurd h (List.not_mem_nil e)) e h
    · exact forall_mem_ite _ (arrow_no_shape _ _ _ _ _ _)
        (fun e h => absurd h (List.not_mem_nil e)) e h
    · exact arrow_no_shape _ _ _ _ _ _ e h
    · exact arrow_no_shape _ _ _ _ _ _ e h
    · exact actionArrows_no_shape _ e h
    · exact arrow_no_shape _ _ _ _ _ _ e h
    · exact arrow_no_shape _ _ _ _ _ _ e h
    · exact arrow_no_shape _ _ _ _ _ _ e h
    · exact arrow_no_shape _ _ _ _ _ _ e h
    · exact arrow_no_shape _ _ _ _ _ _ e h


lemma zorder_pos_of_not_line (e : Elem) (h : e.isLine = false) : 0 < e.zorder := by
  cases e <;> simp_all [Elem.zorder, Elem.isLine]

lemma draw_rect_no_line (x y w h : ℚ) (s : String) :
    ∀ e ∈ draw_rect x y w h s, e.isLine = false := by
  intro e he
  simp only [draw_rect, List.mem_cons, List.not_mem_nil, or_false] at he
  rcases he with rfl | rfl <;> rfl

lemma draw_ellipse_no_line (x y w h : ℚ) (s : String) :
    ∀ e ∈ draw_ellipse x y w h s, e.isLine = false := by
  intro e he
  simp only [draw_ellipse, List.mem_cons, List.not_mem_nil, or_false] at he
  rcases he with rfl | rfl <;> rfl

lemma draw_database_no_line (x y w h : ℚ) (t st : String) :
    ∀ e ∈ draw_database x y w h t st, e.isLine = false := by
  intro e he
  rw [draw_database] at he
  rcases List.mem_append.mp he with h | h
  · simp only [List.mem_cons, List.not_mem_nil, or_false] at h
    rcases h with rfl | rfl | rfl | rfl <;> rfl
  · rcases Decidable.em (st = "") with hst | hst
    · rw [if_pos hst] at h; cases h
    · rw [if_neg hst] at h
      simp only [List.mem_cons, List.not_mem_nil, or_false] at h
      rw [h]; rfl

lemma bullet_no_line (x y w h : ℚ) (t : String) (l : List String) :
    ∀ e ∈ draw_bullet_panel x y w h t l, e.isLine = false := by
  intro e he
  rw [draw_bullet_panel] at he
  rcases List.mem_append.mp he with h | h
  · simp only [List.mem_cons, List.not_mem_nil, or_false] at h
    rcases h with rfl | rfl <;> rfl
  · rcases mem_bulletLines h with ⟨a, b, s, rfl⟩; rfl

lemma arrow_no_line (sx sy ex ey c : ℚ) (lb : String) :
    ∀ e ∈ arrow sx sy ex ey lb c, e.isLine = false := by
  intro e he
  rw [arrow] at he
  rcases List.mem_cons.mp he with rfl | he
  · rfl
  · rcases Decidable.em (lb = "") with h | h
    · rw [if_pos h] at he; cases he
    · rw [if_neg h] at he
      simp only [List.mem_cons, List.not_mem_nil, or_false] at he
      rw [he]; rfl

lemma actorBoxes_no_line (y : ℚ) (l : List String) :
    ∀ e ∈ actorBoxes y l, e.isLine = false := by
  intro e he
  rcases mem_actorBoxes he with ⟨y2, rfl⟩ | ⟨a, b, s, rfl⟩ <;> rfl

lemma actionBoxes_no_line (y : ℚ) (l : List String) :
    ∀ e ∈ actionBoxes y l, e.isLine = false := by
  intro e he
  rcases mem_actionBoxes he with ⟨y2, rfl⟩ | ⟨a, b, s, rfl⟩ <;> rfl

lemma actionArrows_no_line (n : ℕ) : ∀ e ∈ actionArrows n, e.isLine = false := by
  intro e he
  rcases mem_actionArrows he with ⟨cy, rfl⟩
  rfl

lemma vertGridX_none_of_not_line (e : Elem) (h : e.isLine = false) : vertGridX e = none := by
  cases e <;> simp_all [vertGridX, Elem.isLine]

lemma horizGridY_none_of_not_line (e : Elem) (h : e.isLine = false) : horizGridY e = none := by
  cases e <;> simp_all [horizGridY, Elem.isLine]

lemma filterMap_nil_of_no_line {α : Type} {f : Elem → Option α}
    (hf : ∀ e, e.isLine = false → f e = none) {l : List Elem}
    (hl : ∀ e ∈ l, e.isLine = false) : l.filterMap f = [] :=
  List.filterMap_eq_nil_iff.mpr fun e he => hf e (hl e he)

lemma gridLines_vertXs (n : ℕ) :
    (gridLines n).filterMap vertGridX = (List.range (n + 1)).map fun i : ℕ => (i : ℚ) / n := by
  rw [gridLines]
  generalize List.range (n + 1) = l
  induction l with
  | nil => rfl
  | cons a t ih =>
      rw [List.flatMap_cons, List.filterMap_append, ih, List.map_cons]
      have h1 : vertGridX (Elem.line ((a : ℚ) / n) 0 ((a : ℚ) / n) 1 0) =
          some ((a : ℚ) / n) := by
        simp [vertGridX]
      have h2 : vertGridX (Elem.line 0 ((a : ℚ) / n) 1 ((a : ℚ) / n) 0) = none := by
        norm_num [vertGridX]
      simp [List.filterMap_cons, h1, h2]

lemma gridLines_horizYs (n : ℕ) :
    (gridLines n).filterMap horizGridY = (List.range (n + 1)).map fun i : ℕ => (i : ℚ) / n := by
  rw [gridLines]
  generalize List.range (n + 1) = l
  induction l with
  | nil => rfl
  | cons a t ih =>
      rw [List.flatMap_cons, List.filterMap_append, ih, List.map_cons]
      have h1 : horizGridY (Elem.line ((a : ℚ) / n) 0 ((a : ℚ) / n) 1 0) = none := by
        norm_num [horizGridY]
      have h2 : horizGridY (Elem.line 0 ((a : ℚ) / n) 1 ((a : ℚ) / n) 0) =
          some ((a : ℚ) / n) := by
        simp [horizGridY]
      simp [List.filterMap_cons, h1, h2]

lemma setup_vertXs (t st : String) :
    (setup_canvas t st).filterMap vertGridX =
      (List.range 51).map fun i : ℕ => (i : ℚ) / 50 := by
  rw [setup_canvas, List.filterMap_append, List.filterMap_append, gridLines_vertXs,
    filterMap_ite]
  norm_num [vertGridX]

lemma setup_horizYs (t st : String) :
    (setup_canvas t st).filterMap horizGridY =
      (List.range 51).map fun i : ℕ => (i : ℚ) / 50 := by
  rw [setup_canvas, List.filterMap_append, List.filterMap_append, gridLines_horizYs,
    filterMap_ite]
  norm_num [horizGridY]

/-- Vertical grid-line abscissas of a full role DFD: the 51 evenly
spaced positions i/50, and nothing else in the scene is a grid line. -/
lemma vertXs_dfd (s : TemplateSpec) :
    (generate_role_dfd s).filterMap vertGridX =
      (List.range 51).map fun i : ℕ => (i : ℚ) / 50 := by
  rw [generate_role_dfd]
  simp only [List.filterMap_append, filterMap_ite, List.filterMap_nil]
  rw [setup_vertXs,
    filterMap_nil_of_no_line vertGridX_none_of_not_line (actorBoxes_no_line _ _),
    filterMap_nil_of_no_line vertGridX_none_of_not_line (draw_rect_no_line _ _ _ _ _),
    filterMap_nil_of_no_line vertGridX_none_of_not_line (draw_ellipse_no_line _ _ _ _ _),
    filterMap_nil_of_no_line vertGridX_none_of_not_line (draw_rect_no_line _ _ _ _ _),
    filterMap_nil_of_no_line vertGridX_none_of_not_line (actionBoxes_no_line _ _),
    filterMap_nil_of_no_line vertGridX_none_of_not_line (draw_database_no_line _ _ _ _ _ _),
    filterMap_nil_of_no_line vertGridX_none_of_not_line (draw_database_no_line _ _ _ _ _ _),
    filterMap_nil_of_no_line vertGridX_none_of_not_line (bullet_no_line _ _ _ _ _ _),
    filterMap_nil_of_no_line vertGridX_none_of_not_line (bullet_no_line _ _ _ _ _ _),
    filterMap_nil_of_no_line vertGridX_none_of_not_line (actionArrows_no_line _)]
  simp only [filterMap_nil_of_no_line vertGridX_none_of_not_line (arrow_no_line _ _ _ _ _ _),
    ite_self]
  simp

/-- Horizontal grid-line ordinates of a full role DFD: the 51 evenly
spaced positions i/50. -/
lemma horizYs_dfd (s : TemplateSpec) :
    (generate_role_dfd s).filterMap horizGridY =
      (List.range 51).map fun i : ℕ => (i : ℚ) / 50 := by
  rw [generate_role_dfd]
  simp only [List.filterMap_append, filterMap_ite, List.filterMap_nil]
  rw [setup_horizYs,
    filterMap_nil_of_no_line horizGridY_none_of_not_line (actorBoxes_no_line _ _),
    filterMap_nil_of_no_line horizGridY_none_of_not_line (draw_rect_no_line _ _ _ _ _),
    filterMap_nil_of_no_line horizGridY_none_of_not_line (draw_ellipse_no_line _ _ _ _ _),
    filterMap_nil_of_no_line horizGridY_none_of_not_line (draw_rect_no_line _ _ _ _ _),
    filterMap_nil_of_no_line horizGridY_none_of_not_line (actionBoxes_no_line _ _),
    filterMap_nil_of_no_line horizGridY_none_of_not_line (draw_database_no_line _ _ _ _ _ _),
    filterMap_nil_of_no_line horizGridY_none_of_not_line (draw_database_no_line _ _ _ _ _ _),
    filterMap_nil_of_no_line horizGridY_none_of_not_line (bullet_no_line _ _ _ _ _ _),
    filterMap_nil_of_no_line horizGridY_none_of_not_line (bullet_no_line _ _ _ _ _ _),
    filterMap_nil_of_no_line horizGridY_none_of_not_line (actionArrows_no_line _)]
  simp only [filterMap_nil_of_no_line horizGridY_none_of_not_line (arrow_no_line _ _ _ _ _ _),
    ite_self]
  simp

/-- Every plotted line of a full role DFD is a grid line with zorder 0. -/
lemma lineZorder_dfd (s : TemplateSpec) :
    ∀ e ∈ generate_role_dfd s, e.isLine = true → e.zorder = 0 := by
  intro e he hline
  rw [generate_role_dfd] at he
  simp only [List.mem_append, or_assoc] at he
  rcases he with h | h | h | h | h | h | h | h | h | h | h | h | h | h | h | h | h | h | h | h | h
  · rw [setup_canvas] at h
    simp only [List.mem_append] at h
    rcases h with (h | h) | h
    · rcases mem_gridLines h with ⟨a, b, c, d, rfl⟩; rfl
    · simp only [List.mem_cons, List.not_mem_nil, or_false] at h
      rw [h] at hline; cases hline
    · have := @forall_mem_ite (fun e => e.isLine = false) _ _ _ _
        (fun e h => absurd h (List.not_mem_nil e))
        (fun e h => by
          simp only [List.mem_cons, List.not_mem_nil, or_false] at h
          rw [h]; rfl) e h
      rw [this] at hline; cases hline
  · rw [actorBoxes_no_line _ _ e h] at hline; cases hline
  · rw [draw_rect_no_line _ _ _ _ _ e h] at hline; cases hline
  · rw [draw_ellipse_no_line _ _ _ _ _ e h] at hline; cases hline
  · rw [draw_rect_no_line _ _ _ _ _ e h] at hline; cases hline
  · rw [actionBoxes_no_line _ _ e h] at hline; cases hline
  · rw [draw_database_no_line _ _ _ _ _ _ e h] at hline; cases hline
  · rw [draw_database_no_line _ _ _ _ _ _ e h] at hline; cases hline
  · rw [bullet_no_line _ _ _ _ _ _ e h] at hline; cases hline
  · rw [bullet_no_line _ _ _ _ _ _ e h] at hline; cases hline
  · rw [arrow_no_line _ _ _ _ _ _ e h] at hline; cases hline
  · have := @forall_mem_ite (fun e => e.isLine = false) _ _ _ _
      (arrow_no_line _ _ _ _ _ _) (fun e h => absurd h (List.not_mem_nil e)) e h
    rw [this] at hline; cases hline
  · have := @forall_mem_ite (fun e => e.isLine = false) _ _ _ _
      (arrow_no_line _ _ _ _ _ _) (fun e h => absurd h (List.not_mem_nil e)) e h
    rw [this] at hline; cases hline
  · rw [arrow_no_line _ _ _ _ _ _ e h] at hline; cases hline
  · rw [arrow_no_line _ _ _ _ _ _ e h] at hline; cases hline
  · rw [actionArrows_no_line _ e h] at hline; cases hline
  · rw [arrow_no_line _ _ _ _ _ _ e h] at hline; cases hline
  · rw [arrow_no_line _ _ _ _ _ _ e h] at hline; cases hline
  · rw [arrow_no_line _ _ _ _ _ _ e h] at hline; cases hline
  · rw [arrow_no_line _ _ _ _ _ _ e h] at hline; cases hline
  · rw [arrow_no_line _ _ _ _ _ _ e h] at hline; cases hline


lemma bulletLines_texts (x : ℚ) : ∀ (l : List String) (ly : ℚ),
    (bulletLines x ly l).filterMap (textAt (x + 0.018)) = l.map fun s => "- " ++ s := by
  intro l
  induction l with
  | nil => intro ly; rfl
  | cons hd tl ih =>
      intro ly
      rw [bulletLines, List.filterMap_cons]
      have h1 : textAt (x + 0.018) (Elem.text (x + 0.018) ly ("- " ++ hd)) =
          some ("- " ++ hd) := by
        simp [textAt]
      rw [h1, ih, List.map_cons]

/-- Body texts of a bullet panel: exactly the first four supplied lines,
bulleted, in their original order. -/
lemma panel_texts (x y w h : ℚ) (t : String) (l : List String) :
    textsAtX (x + 0.018) (draw_bullet_panel x y w h t l) =
      (l.take 4).map fun s => "- " ++ s := by
  rw [textsAtX, draw_bullet_panel, List.filterMap_append, bulletLines_texts]
  have h1 : textAt (x + 0.018) (Elem.fancyBox x y w h) = none := rfl
  have h2 : textAt (x + 0.018) (Elem.text (x + 0.015) (y + h - 0.02) t) = none := by
    rw [textAt]
    norm_num
  simp [List.filterMap_cons, h1, h2]

/-- The consumed prefix of the fixed action-center table, in closed
form: entry i is 0.762 - 0.09 i. -/
lemma action_centers_take (n : ℕ) (hn : n ≤ 5) :
    action_centers.take n = (List.range n).map fun i : ℕ => 0.762 - 0.09 * (i : ℚ) := by
  interval_cases n <;> norm_num [action_centers, List.range_succ]

end Proposal

end Clio

namespace Clio

open Proposal

/-- Claim C1, as stated, is false: for the spec scenario (two actors,
three action steps), `generate_role_dfd` draws 12 connectors, not the
claimed 2 + 3 + 5 = 10 — the fixed skeleton has 7 connectors, not 5. -/
theorem c1_counterexample :
    connectorCount (generate_role_dfd scenarioSpec) = 12 ∧
    connectorCount (generate_role_dfd scenarioSpec) ≠ 10 := by
  decide

/-- Claim C1 (amended): for 1 ≤ |actors| ≤ 3 and 1 ≤ |actionSteps| ≤ 5,
the instancer draws exactly |actors| actor boxes, exactly |actionSteps|
action boxes, and |actors| + |actionSteps| + 7 connectors (the fixed
skeleton contributes 7 connectors, so the scenario yields 12, not 10). -/
theorem c1_amended (s : TemplateSpec) (h1 : 1 ≤ s.actor_lines.length)
    (h2 : s.actor_lines.length ≤ 3) (h3 : 1 ≤ s.action_lines.length)
    (h4 : s.action_lines.length ≤ 5) :
    actorShapeCount (generate_role_dfd s) = s.actor_lines.length ∧
    actionShapeCount (generate_role_dfd s) = s.action_lines.length ∧
    connectorCount (generate_role_dfd s) =
      s.actor_lines.length + s.action_lines.length + 7 := by
  refine ⟨actorShapeCount_dfd s, actionShapeCount_dfd s, ?_⟩
  rw [connectorCount_dfd]
  split_ifs <;> omega

/-- Witness for the amended claim C1 at the spec scenario. -/
theorem c1_witness :
    actorShapeCount (generate_role_dfd scenarioSpec) = scenarioSpec.actor_lines.length ∧
    actionShapeCount (generate_role_dfd scenarioSpec) = scenarioSpec.action_lines.length ∧
    connectorCount (generate_role_dfd scenarioSpec) =
      scenarioSpec.actor_lines.length + scenarioSpec.action_lines.length + 7 :=
  c1_amended scenarioSpec (by decide) (by decide) (by decide) (by decide)

/-- Claim C2, as stated, is false: with one action step, the action
box's vertical center is 0.7625 (origin 0.73 plus half height 0.0325),
not the table entry 0.762. -/
theorem c2_counterexample :
    rectCenterYsAtX 0.68 (generate_role_dfd oneActionSpec) = [0.7625] ∧
    (0.7625 : ℚ) ≠ 0.762 := by
  constructor
  · rw [actionCenterYs_dfd]
    norm_num [oneActionSpec, List.range_succ]
  · norm_num

/-- Claim C2 (amended): the i-th action box's vertical center is the
i-th table entry 0.762 - 0.09 i plus 0.0005 (boxes start at 0.73 with
height 0.065), while the ellipse-to-action connectors end exactly at the
tabulated values 0.762 - 0.09 i. -/
theorem c2_amended (s : TemplateSpec) (hlo : 1 ≤ s.action_lines.length)
    (h2 : s.action_lines.length ≤ 5) :
    rectCenterYsAtX 0.68 (generate_role_dfd s) =
      (List.range s.action_lines.length).map
        (fun i : ℕ => 0.762 - 0.09 * (i : ℚ) + 0.0005) ∧
    arrowEndYsFrom 0.63 0.57 (generate_role_dfd s) =
      (List.range s.action_lines.length).map fun i : ℕ => 0.762 - 0.09 * (i : ℚ) := by
  constructor
  · rw [actionCenterYs_dfd]
    exact List.map_congr_left fun a _ => by ring
  · rw [arrowEndYs_dfd, action_centers_take _ h2]

/-- Witness for the amended claim C2 at the spec scenario. -/
theorem c2_witness :
    rectCenterYsAtX 0.68 (generate_role_dfd scenarioSpec) =
      (List.range scenarioSpec.action_lines.length).map
        (fun i : ℕ => 0.762 - 0.09 * (i : ℚ) + 0.0005) ∧
    arrowEndYsFrom 0.63 0.57 (generate_role_dfd scenarioSpec) =
      (List.range scenarioSpec.action_lines.length).map
        fun i : ℕ => 0.762 - 0.09 * (i : ℚ) :=
  c2_amended scenarioSpec (by decide) (by decide)

/-- Claim C3: actor boxes stack top-down from y = 0.72 with pitch 0.11;
the connectors into the gateway point (0.23, 0.60) are the straight
first-actor arrow from (0.18, 0.76), then, when present, the converging
arrows from positions 2 and 3 with curvatures 0.05 and 0.09; the first
arrow carries the "Access" label at its chord midpoint. -/
theorem c3_theorem (s : TemplateSpec) (hlo : 1 ≤ s.actor_lines.length)
    (hhi : s.actor_lines.length ≤ 3) :
    rectOriginYsAtX 0.04 (generate_role_dfd s) =
      (List.range s.actor_lines.length).map (fun i : ℕ => 0.72 - 0.11 * (i : ℚ)) ∧
    arrowsInto 0.23 0.60 (generate_role_dfd s) =
      ((0.18 : ℚ), (0.76 : ℚ), (0 : ℚ)) ::
        ((if 1 < s.actor_lines.length then [((0.18 : ℚ), (0.65 : ℚ), (0.05 : ℚ))] else []) ++
          (if 2 < s.actor_lines.length then [((0.18 : ℚ), (0.54 : ℚ), (0.09 : ℚ))] else [])) ∧
    Elem.text 0.205 0.692 "Access" ∈ generate_role_dfd s :=
  ⟨actorYs_dfd s, arrowsIntoGateway_dfd s, access_text_mem s⟩

/-- Witness for claim C3 at the spec scenario. -/
theorem c3_witness :
    rectOriginYsAtX 0.04 (generate_role_dfd scenarioSpec) =
      (List.range scenarioSpec.actor_lines.length).map
        (fun i : ℕ => 0.72 - 0.11 * (i : ℚ)) ∧
    arrowsInto 0.23 0.60 (generate_role_dfd scenarioSpec) =
      ((0.18 : ℚ), (0.76 : ℚ), (0 : ℚ)) ::
        ((if 1 < scenarioSpec.actor_lines.length then [((0.18 : ℚ), (0.65 : ℚ), (0.05 : ℚ))]
          else []) ++
          (if 2 < scenarioSpec.actor_lines.length then [((0.18 : ℚ), (0.54 : ℚ), (0.09 : ℚ))]
            else [])) ∧
    Elem.text 0.205 0.692 "Access" ∈ generate_role_dfd scenarioSpec :=
  c3_theorem scenarioSpec (by decide) (by decide)

/-- Claim C4: a bullet panel draws exactly the first four body lines,
bulleted in original order, and never more than four, whatever the
supplied list (a six-line body renders just its first four lines). -/
theorem c4_theorem (x y w h : ℚ) (t : String) (l : List String) :
    textsAtX (x + 0.018) (draw_bullet_panel x y w h t l) =
      (l.take 4).map (fun s => "- " ++ s) ∧
    (textsAtX (x + 0.018) (draw_bullet_panel x y w h t l)).length ≤ 4 := by
  refine ⟨panel_texts x y w h t l, ?_⟩
  rw [panel_texts, List.length_map, List.length_take]
  exact min_le_left _ _

/-- Claim C5, as stated, is false: the label offset is the fixed
vertical vector (0, 0.012), which for the vertical "Policy checks"
chord (0.52, 0.70)→(0.52, 0.65) is not perpendicular to the chord —
their inner product is nonzero. -/
theorem c5_counterexample :
    arrow 0.52 0.70 0.52 0.65 "Policy checks" 0 =
      [Elem.arrowPatch 0.52 0.70 0.52 0.65 0, Elem.text 0.52 0.687 "Policy checks"] ∧
    ((0.52 : ℚ) - 0.52) * ((0.52 : ℚ) - 0.52) +
        ((0.687 : ℚ) - (0.70 + 0.65) / 2) * ((0.65 : ℚ) - 0.70) ≠ 0 := by
  constructor
  · rw [arrow, if_neg (by decide)]
    norm_num
  · norm_num

/-- Claim C5 (amended): a labeled connector places its label at the
arithmetic midpoint of the endpoints shifted by the fixed vertical
offset (0, 0.012), regardless of the chord's direction; this offset is
perpendicular to the chord exactly when the chord is horizontal. -/
theorem c5_amended (sx sy ex ey c : ℚ) (lb : String) (h : lb ≠ "") :
    arrow sx sy ex ey lb c =
      [Elem.arrowPatch sx sy ex ey c,
       Elem.text ((sx + ex) / 2) ((sy + ey) / 2 + 0.012) lb] ∧
    (sy = ey →
      ((sx + ex) / 2 - (sx + ex) / 2) * (ex - sx) +
          ((sy + ey) / 2 + 0.012 - (sy + ey) / 2) * (ey - sy) = 0) := by
  constructor
  · rw [arrow, if_neg h]
  · intro hy
    rw [hy]
    ring

/-- Witness for the amended claim C5 at the "Access" arrow call. -/
theorem c5_witness :
    arrow 0.18 0.76 0.23 0.60 "Access" 0 =
      [Elem.arrowPatch 0.18 0.76 0.23 0.60 0,
       Elem.text ((0.18 + 0.23) / 2) ((0.76 + 0.60) / 2 + 0.012) "Access"] ∧
    ((0.76 : ℚ) = 0.60 →
      ((0.18 + 0.23) / 2 - (0.18 + 0.23) / 2) * ((0.23 : ℚ) - 0.18) +
          ((0.76 + 0.60) / 2 + 0.012 - (0.76 + 0.60) / 2) * ((0.60 : ℚ) - 0.76) = 0) :=
  c5_amended 0.18 0.76 0.23 0.60 0 "Access" (by decide)

/-- Claim C6, as stated, is false: in the architecture-PNG scene the
"Key Runtime Flows" legend box is emitted after all thirteen
connectors, so a shape is drawn above connectors in that scene. -/
theorem c6_counterexample : shapeAfterConnector ArchPng.main = true := by
  decide

/-- Claim C6 (amended): in the two proposal-diagram generators — every
role DFD and the layered architecture — no shape is emitted at or after
any connector, so connectors render above shapes there; the
architecture-PNG scene violates the invariant with its trailing legend
box. -/
theorem c6_amended :
    (∀ s : TemplateSpec, shapeAfterConnector (generate_role_dfd s) = false) ∧
    shapeAfterConnector generate_layered_architecture = false ∧
    shapeAfterConnector ArchPng.main = true :=
  ⟨fun s => shapeAfter_dfd s, by decide, by decide⟩

/-- Claim C7: the grid loop draws n + 1 vertical lines at i/n spanning
y ∈ [0, 1] and n + 1 horizontal lines at i/n spanning x ∈ [0, 1] (so 51
each for the canvas's n = 50), evenly spaced from 0 to 1; in a full
role-DFD scene these grid lines are exactly the plotted lines, they sit
at zorder 0, and every other element has strictly larger zorder. -/
theorem c7_theorem (n : ℕ) (hn : 0 < n) (s : TemplateSpec) :
    (gridLines n).filterMap vertGridX =
      (List.range (n + 1)).map (fun i : ℕ => (i : ℚ) / n) ∧
    (gridLines n).filterMap horizGridY =
      (List.range (n + 1)).map (fun i : ℕ => (i : ℚ) / n) ∧
    ((gridLines n).filterMap vertGridX).length = n + 1 ∧
    (0 : ℚ) / n = 0 ∧ (n : ℚ) / n = 1 ∧
    (∀ i : ℕ, ((i + 1 : ℕ) : ℚ) / n - (i : ℚ) / n = 1 / n) ∧
    (generate_role_dfd s).filterMap vertGridX =
      (List.range 51).map (fun i : ℕ => (i : ℚ) / 50) ∧
    (generate_role_dfd s).filterMap horizGridY =
      (List.range 51).map (fun i : ℕ => (i : ℚ) / 50) ∧
    (∀ e ∈ generate_role_dfd s, e.isLine = true → e.zorder = 0) ∧
    (∀ e ∈ generate_role_dfd s, e.isLine = false → 0 < e.zorder) := by
  have hn0 : (n : ℚ) ≠ 0 := Nat.cast_ne_zero.mpr hn.ne'
  refine ⟨gridLines_vertXs n, gridLines_horizYs n, ?_, by simp, div_self hn0, ?_,
    vertXs_dfd s, horizYs_dfd s, lineZorder_dfd s,
    fun e _ hl => zorder_pos_of_not_line e hl⟩
  · rw [gridLines_vertXs]
    simp
  · intro i
    push_cast
    field_simp

/-- Witness for claim C7 at n = 50 and the spec scenario. -/
theorem c7_witness :
    (gridLines 50).filterMap vertGridX =
      (List.range (50 + 1)).map (fun i : ℕ => (i : ℚ) / 50) ∧
    (gridLines 50).filterMap horizGridY =
      (List.range (50 + 1)).map (fun i : ℕ => (i : ℚ) / 50) ∧
    ((gridLines 50).filterMap vertGridX).length = 50 + 1 ∧
    (0 : ℚ) / 50 = 0 ∧ ((50 : ℕ) : ℚ) / 50 = 1 ∧
    (∀ i : ℕ, ((i + 1 : ℕ) : ℚ) / 50 - (i : ℚ) / 50 = 1 / 50) ∧
    (generate_role_dfd scenarioSpec).filterMap vertGridX =
      (List.range 51).map (fun i : ℕ => (i : ℚ) / 50) ∧
    (generate_role_dfd scenarioSpec).filterMap horizGridY =
      (List.range 51).map (fun i : ℕ => (i : ℚ) / 50) ∧
    (∀ e ∈ generate_role_dfd scenarioSpec, e.isLine = true → e.zorder = 0) ∧
    (∀ e ∈ generate_role_dfd scenarioSpec, e.isLine = false → 0 < e.zorder) :=
  c7_theorem 50 (by norm_num) scenarioSpec

/-- Claim C8, as stated, is false: with four actors and six action
steps, all four actor boxes and all six action boxes are drawn — excess
items are not dropped from rendering. -/
theorem c8_counterexample :
    actorShapeCount (generate_role_dfd overflowSpec) = 4 ∧
    actionShapeCount (generate_role_dfd overflowSpec) = 6 ∧
    ¬(actorShapeCount (generate_role_dfd overflowSpec) ≤ 3) ∧
    ¬(actionShapeCount (generate_role_dfd overflowSpec) ≤ 5) := by
  have h1 : actorShapeCount (generate_role_dfd overflowSpec) = 4 := by
    rw [actorShapeCount_dfd]; rfl
  have h2 : actionShapeCount (generate_role_dfd overflowSpec) = 6 := by
    rw [actionShapeCount_dfd]; rfl
  exact ⟨h1, h2, by omega, by omega⟩

/-- Claim C8 (amended): an input exceeding the fixed capacity — more
than 3 actors or more than 5 action steps — raises no error, but the
excess items are NOT dropped from rendering: every supplied actor and
action item still gets its box (shape counts equal the full input
lengths). Only the connectors are capped: the actor arrows number
min(max(|actors|, 1), 3) (the "Access" arrow is unconditional, the
position-2 and position-3 arrows conditional), the action arrows
min(|actionSteps|, 5), so the connector total is
min(max(|actors|, 1), 3) + min(|actionSteps|, 5) + 7, never above 15. -/
theorem c8_amended (s : TemplateSpec)
    (hover : 3 < s.actor_lines.length ∨ 5 < s.action_lines.length) :
    actorShapeCount (generate_role_dfd s) = s.actor_lines.length ∧
    actionShapeCount (generate_role_dfd s) = s.action_lines.length ∧
    connectorCount (generate_role_dfd s) =
      min (max s.actor_lines.length 1) 3 + min s.action_lines.length 5 + 7 ∧
    connectorCount (generate_role_dfd s) ≤ 15 := by
  refine ⟨actorShapeCount_dfd s, actionShapeCount_dfd s, ?_, ?_⟩ <;>
    rw [connectorCount_dfd] <;> split_ifs <;> omega

/-- Witness for the amended claim C8 at the four-actor six-action input. -/
theorem c8_witness :
    actorShapeCount (generate_role_dfd overflowSpec) = overflowSpec.actor_lines.length ∧
    actionShapeCount (generate_role_dfd overflowSpec) = overflowSpec.action_lines.length ∧
    connectorCount (generate_role_dfd overflowSpec) =
      min (max overflowSpec.actor_lines.length 1) 3 +
        min overflowSpec.action_lines.length 5 + 7 ∧
    connectorCount (generate_role_dfd overflowSpec) ≤ 15 :=
  c8_amended overflowSpec (by decide)

/-- Claim C9, as stated, is false: on the CLIO-DB cylinder call the two
ellipse caps are not offset from the rectangle's edges by one common
inset — the bottom cap sits exactly on the bottom edge (offset 0) while
the top cap sits 0.02 above the top edge. -/
theorem c9_counterexample :
    draw_database 0.88 0.48 0.09 0.22 "CLIO DB" "users" =
      [Elem.rect 0.88 0.505 0.09 0.17,
       Elem.ellipse 0.925 0.695 0.09 0.05,
       Elem.ellipse 0.925 0.505 0.09 0.05,
       Elem.text 0.925 0.61 "CLIO DB",
       Elem.text 0.925 0.57 "users"] ∧
    (0.695 : ℚ) - (0.505 + 0.17) ≠ (0.505 : ℚ) - 0.505 := by
  constructor
  · rw [draw_database, if_neg (by decide)]
    norm_num
  · norm_num

/-- Claim C9 (amended): the cylinder is one rectangle body (height
h - 0.05, origin y + 0.025) plus two ellipse caps sharing the width w;
the bottom cap is centered exactly on the rectangle's bottom edge while
the top cap is centered 0.02 above the rectangle's top edge (0.005
below the shape's top); the title and subtitle are centered about the
body's vertical midpoint, offset up and down by the equal amount 0.02. -/
theorem c9_amended (x y w h : ℚ) (t st : String) (hst : st ≠ "") :
    draw_database x y w h t st =
      [Elem.rect x (y + 0.025) w (h - 0.05),
       Elem.ellipse (x + w / 2) (y + h - 0.005) w 0.05,
       Elem.ellipse (x + w / 2) (y + 0.025) w 0.05,
       Elem.text (x + w / 2) (y + h / 2 + 0.02) t,
       Elem.text (x + w / 2) (y + h / 2 - 0.02) st] ∧
    y + 0.025 = y + 0.025 ∧
    y + h - 0.005 = (y + 0.025 + (h - 0.05)) + 0.02 ∧
    (y + h / 2 + 0.02) - (y + 0.025 + (h - 0.05) / 2) =
      (y + 0.025 + (h - 0.05) / 2) - (y + h / 2 - 0.02) := by
  refine ⟨?_, rfl, by ring, by ring⟩
  rw [draw_database, if_neg hst]
  rfl

/-- Witness for the amended claim C9 at the CLIO-DB cylinder call. -/
theorem c9_witness :
    draw_database 0.88 0.48 0.09 0.22 "CLIO DB" "users" =
      [Elem.rect 0.88 (0.48 + 0.025) 0.09 (0.22 - 0.05),
       Elem.ellipse (0.88 + 0.09 / 2) (0.48 + 0.22 - 0.005) 0.09 0.05,
       Elem.ellipse (0.88 + 0.09 / 2) (0.48 + 0.025) 0.09 0.05,
       Elem.text (0.88 + 0.09 / 2) (0.48 + 0.22 / 2 + 0.02) "CLIO DB",
       Elem.text (0.88 + 0.09 / 2) (0.48 + 0.22 / 2 - 0.02) "users"] ∧
    (0.48 : ℚ) + 0.025 = 0.48 + 0.025 ∧
    (0.48 : ℚ) + 0.22 - 0.005 = (0.48 + 0.025 + (0.22 - 0.05)) + 0.02 ∧
    ((0.48 : ℚ) + 0.22 / 2 + 0.02) - (0.48 + 0.025 + (0.22 - 0.05) / 2) =
      (0.48 + 0.025 + (0.22 - 0.05) / 2) - (0.48 + 0.22 / 2 - 0.02) :=
  c9_amended 0.88 0.48 0.09 0.22 "CLIO DB" "users" (by decide)

/-- Claim C10: with an empty actor list the instancer still draws no
actor box but unconditionally emits the "Access" arrow from the fixed
first-actor anchor (0.18, 0.76) into the gateway, so the connector
total is one more than the per-item formula 0 + |actionSteps| + 7. -/
theorem c10_theorem (s : TemplateSpec) (h0 : s.actor_lines.length = 0)
    (h5 : s.action_lines.length ≤ 5) :
    actorShapeCount (generate_role_dfd s) = 0 ∧
    Elem.arrowPatch 0.18 0.76 0.23 0.60 0 ∈ generate_role_dfd s ∧
    Elem.text 0.205 0.692 "Access" ∈ generate_role_dfd s ∧
    connectorCount (generate_role_dfd s) =
      (s.actor_lines.length + s.action_lines.length + 7) + 1 := by
  refine ⟨by rw [actorShapeCount_dfd, h0], access_arrow_mem s, access_text_mem s, ?_⟩
  rw [connectorCount_dfd]
  split_ifs <;> omega

/-- Witness for claim C10 at the no-actor input. -/
theorem c10_witness :
    actorShapeCount (generate_role_dfd noActorSpec) = 0 ∧
    Elem.arrowPatch 0.18 0.76 0.23 0.60 0 ∈ generate_role_dfd noActorSpec ∧
    Elem.text 0.205 0.692 "Access" ∈ generate_role_dfd noActorSpec ∧
    connectorCount (generate_role_dfd noActorSpec) =
      (noActorSpec.actor_lines.length + noActorSpec.action_lines.length + 7) + 1 :=
  c10_theorem noActorSpec (by decide) (by decide)

end Clio
